import Mathlib

/-!
Verification of the frameception durable provisioning workflow.

This file is a shallow embedding of the two core components of the
repository, translated from the Python sources:

* `backend/services/project_setup_service.py` — the workflow state machine
  (`SetupState`, `SetupContext`, `ProjectSetupService.advance`), embedded as
  pure Lean functions over an explicit machine state plus an effect trace.
  External collaborators (database, GitHub, Vercel, the remote code-update
  dispatch) only matter here through whether a stage body raises, so a stage
  body is modelled by its outcome: `none` for success, `some msg` for an
  exception whose Python `str(e)` is `msg`.

* `backend/services/code_service.py` — the code generation and build
  validation loop (`CodeService.run`, `CodeService._setup`,
  `CodeService._run_build_in_sandbox`, `get_error_fix_prompt_from_logs`,
  `clean_log_lines`), embedded with oracles for the external calls
  (the AI coder, the sandbox build process, git) and an effect trace
  recording database writes and sandbox operations.

Machine-level observable effects (log writes, job-status writes) are recorded
in traces so that the theorems can speak about what is, and is not, persisted.
-/

/-! ## Python string helpers -/

/-- Boolean substring test on lists of characters: `listInfix n h` is true iff
`n` occurs contiguously inside `h`.  This is Python's `n in h` for strings. -/
def listInfix (ndl : List Char) : List Char → Bool
  | [] => ndl.isEmpty
  | c :: t => ndl.isPrefixOf (c :: t) || listInfix ndl t

/-- Python's substring operator `ndl in hay`. -/
def strContains (hay ndl : String) : Bool := listInfix ndl.data hay.data

/-- The whitespace characters removed by Python's `str.strip()` with no
argument (ASCII whitespace). -/
def isPySpace (c : Char) : Bool :=
  c == ' ' || c == '\t' || c == '\n' || c == '\r' ||
    c == (Char.ofNat 11) || c == (Char.ofNat 12)

/-- Python's `str.strip()`: drops leading and trailing whitespace. -/
def pyStrip (s : String) : String :=
  String.mk (((s.data.dropWhile isPySpace).reverse.dropWhile isPySpace).reverse)

/-- Python's `str.lower()` on the ASCII range (the only range the build
classification substrings live in). -/
def pyLower (s : String) : String := String.mk (s.data.map Char.toLower)

/-- Python's `str.startswith(pre)`. -/
def pyStartsWith (s pre : String) : Bool := pre.data.isPrefixOf s.data

/-! ## `SetupState` (project_setup_service.py, class SetupState) -/

/-- The workflow states, translated from the `SetupState` enum. -/
inductive SetupState where
  | INIT
  | VALIDATING
  | GITHUB_SETUP
  | VERCEL_SETUP
  | CODE_UPDATE
  | METADATA_UPDATE
  | DOMAIN_SETUP
  | NOTIFICATION
  | COMPLETE
  | FAILED
deriving DecidableEq, Repr

/-- The `.value` string of each enum member. -/
def stateValue : SetupState → String
  | .INIT => "init"
  | .VALIDATING => "validating"
  | .GITHUB_SETUP => "github_setup"
  | .VERCEL_SETUP => "vercel_setup"
  | .CODE_UPDATE => "code_update"
  | .METADATA_UPDATE => "metadata_update"
  | .DOMAIN_SETUP => "domain_setup"
  | .NOTIFICATION => "notification"
  | .COMPLETE => "complete"
  | .FAILED => "failed"

/-- Python's `str()` of an enum member, as interpolated into the
`ValueError` message of `_transition_to`. -/
def enumStr : SetupState → String
  | .INIT => "SetupState.INIT"
  | .VALIDATING => "SetupState.VALIDATING"
  | .GITHUB_SETUP => "SetupState.GITHUB_SETUP"
  | .VERCEL_SETUP => "SetupState.VERCEL_SETUP"
  | .CODE_UPDATE => "SetupState.CODE_UPDATE"
  | .METADATA_UPDATE => "SetupState.METADATA_UPDATE"
  | .DOMAIN_SETUP => "SetupState.DOMAIN_SETUP"
  | .NOTIFICATION => "SetupState.NOTIFICATION"
  | .COMPLETE => "SetupState.COMPLETE"
  | .FAILED => "SetupState.FAILED"

/-- The transition table built in `ProjectSetupService.__init__`. -/
def transitions : SetupState → List SetupState
  | .INIT => [.VALIDATING, .FAILED]
  | .VALIDATING => [.GITHUB_SETUP, .FAILED]
  | .GITHUB_SETUP => [.VERCEL_SETUP, .FAILED]
  | .VERCEL_SETUP => [.CODE_UPDATE, .FAILED]
  | .CODE_UPDATE => [.METADATA_UPDATE, .FAILED]
  | .METADATA_UPDATE => [.DOMAIN_SETUP, .FAILED]
  | .DOMAIN_SETUP => [.NOTIFICATION, .FAILED]
  | .NOTIFICATION => [.COMPLETE, .FAILED]
  | .COMPLETE => []
  | .FAILED => []

/-- The target state selected by the `if`/`elif` chain in `advance()`:
from each non-terminal state `advance` attempts exactly one table transition.
`none` for `COMPLETE` and `FAILED`, where no branch of the chain matches. -/
def nextStage : SetupState → Option SetupState
  | .INIT => some .VALIDATING
  | .VALIDATING => some .GITHUB_SETUP
  | .GITHUB_SETUP => some .VERCEL_SETUP
  | .VERCEL_SETUP => some .CODE_UPDATE
  | .CODE_UPDATE => some .METADATA_UPDATE
  | .METADATA_UPDATE => some .DOMAIN_SETUP
  | .DOMAIN_SETUP => some .NOTIFICATION
  | .NOTIFICATION => some .COMPLETE
  | .COMPLETE => none
  | .FAILED => none

/-! ## Observable effects of the state machine

The service talks to the checkpoint store (class `Database`) through
`add_log`, `update_job_status` and — per the external interface of the
checkpoint store — a `save_job_state(job_id, context, state)` operation that
would persist the `(SetupContext, SetupState)` checkpoint pair.  The
`saveJobState` constructor models that operation so theorems can state
whether `advance` ever invokes it; no code path in
`project_setup_service.py` emits it. -/

/-- One observable database effect of the state machine, in program order. -/
inductive Effect where
  | addLog (channel msg : String)
  | updateJobStatus (status : String) (err : Option String)
  | saveJobState
deriving DecidableEq, Repr

/-- Detects the checkpoint-pair persistence operation. -/
def Effect.isSave : Effect → Bool
  | .saveJobState => true
  | _ => false

/-- Detects a log entry on the "backend" channel (the channel used by
`_handle_error`). -/
def Effect.isBackendLog : Effect → Bool
  | .addLog c _ => c == "backend"
  | _ => false

/-- The slice of `ProjectSetupService` state that `advance` reads and
writes: the machine state and `context.error`.  Stage bodies mutate other
`SetupContext` fields only with data returned by external collaborators,
which is irrelevant to every claim about `advance`; their behaviour enters
the model solely through the stage outcome argument of `advance`. -/
structure MState where
  state : SetupState
  error : Option String
deriving DecidableEq, Repr

/-- The `add_log` emitted by `_log_state_transition`. -/
def logStateEffect (s : SetupState) : Effect :=
  .addLog "state" ("Project setup state: " ++ stateValue s)

/-- The `update_job_status` emitted by `_update_job_status`:
"completed" only in `COMPLETE`, otherwise "pending". -/
def statusEffect (s : SetupState) : Effect :=
  .updateJobStatus (if s = .COMPLETE then "completed" else "pending") none

/-- The `ValueError` message raised by `_transition_to` on an edge not in
the table. -/
def invalidMsg (src tgt : SetupState) : String :=
  "Invalid state transition from " ++ enumStr src ++ " to " ++ enumStr tgt

/-- Embedding of `_transition_to`: checks the edge against the table and, on
success, updates the state, logs the new state and writes the job status.
On an illegal edge it raises (`Except.error`) with the `ValueError` message
and performs no effect. -/
def transitionTo (m : MState) (ns : SetupState) :
    Except String (MState × List Effect) :=
  if ns ∈ transitions m.state then
    .ok ({ m with state := ns }, [logStateEffect ns, statusEffect ns])
  else
    .error (invalidMsg m.state ns)

/-- The result of one `advance()` call: the final in-memory service state,
the effect trace, the exception propagated to the caller (if any), and the
returned state (when no exception propagated). -/
structure AdvResult where
  final : MState
  effects : List Effect
  raised : Option String
  ret : Option SetupState
deriving DecidableEq, Repr

/-- Embedding of the `except Exception` handler of `advance`: store the
message in `context.error`, call `_transition_to(FAILED)` — which performs
the normal edge check and can itself raise — then `_handle_error`, which
logs `"Error in <current state>: <msg>"` and sets the job status to
"failed".  If the forced transition raises, that `ValueError` propagates
out of `advance` (there is no further handler). -/
def handleError (m : MState) (eff : List Effect) (msg : String) : AdvResult :=
  let m1 := { m with error := some msg }
  match transitionTo m1 .FAILED with
  | .error verr =>
      { final := m1, effects := eff, raised := some verr, ret := none }
  | .ok (m2, e2) =>
      let emsg := "Error in " ++ stateValue m2.state ++ ": " ++ msg
      { final := m2
        effects := eff ++ e2 ++
          [.addLog "backend" emsg, .updateJobStatus "failed" (some emsg)]
        raised := none
        ret := some m2.state }

/-- Embedding of `ProjectSetupService.advance`.  `outcome` is the behaviour
of the stage body entered on this call: `none` if it returns normally,
`some msg` if it raises an exception with message `msg`. -/
def advance (m : MState) (outcome : Option String) : AdvResult :=
  let e0 := [logStateEffect m.state]
  match nextStage m.state with
  | none =>
      { final := m, effects := e0, raised := none, ret := some m.state }
  | some ns =>
      match transitionTo m ns with
      | .error verr => handleError m e0 verr
      | .ok (m1, e1) =>
          match outcome with
          | none =>
              { final := m1, effects := e0 ++ e1, raised := none
                ret := some m1.state }
          | some msg => handleError m1 (e0 ++ e1) msg

/-! ## `SetupContext` and its serialization (project_setup_service.py) -/

/-- A Python value as it appears in the request payload and in the maps the
context stores (`data`, `user_context`, `vercel_info`).  Only structure
matters for the serialization claims, not the particular constructors. -/
inductive PyVal where
  | vnone
  | vstr (s : String)
  | vint (n : Int)
  | vbool (b : Bool)
  | vlist (xs : List PyVal)
  | vdict (kvs : List (String × PyVal))

/-- Python `dict.get(k, dflt)` over an association list. -/
def dictGet (kvs : List (String × PyVal)) (k : String) (dflt : PyVal) : PyVal :=
  match kvs.find? (fun kv => kv.1 == k) with
  | some kv => kv.2
  | none => dflt

/-- The live GitHub repository handle; only its full name is read by the
serialization code (`self.repo.full_name`). -/
structure Repo where
  full_name : String
deriving DecidableEq, Repr

/-- The fields of class `SetupContext`.  Python `None` is `none`; the
`completed_steps` Python set is a `Finset`. -/
structure SetupContext where
  data : List (String × PyVal)
  project_id : String
  job_id : String
  user_context : PyVal
  project_name : Option String
  repo : Option Repo
  vercel_info : Option PyVal
  frontend_url : Option String
  error : Option String
  completed_steps : Finset String

/-- Embedding of `SetupContext.__init__`. -/
def SetupContext.init (data : List (String × PyVal)) (pid jid : String) :
    SetupContext :=
  { data := data
    project_id := pid
    job_id := jid
    user_context := dictGet data "userContext" (.vdict [])
    project_name := none
    repo := none
    vercel_info := none
    frontend_url := none
    error := none
    completed_steps := ∅ }

/-- The dict produced by `SetupContext.to_dict`, one field per key.  Python
serializes `completed_steps` with `list(self.completed_steps)`, whose
enumeration order is unspecified, so the serialized form is modelled as a
`Multiset`. -/
structure ContextDict where
  data : List (String × PyVal)
  project_id : String
  job_id : String
  user_context : PyVal
  project_name : Option String
  repo_full_name : Option String
  vercel_info : Option PyVal
  frontend_url : Option String
  error : Option String
  completed_steps : Multiset String

/-- Embedding of `SetupContext.to_dict`:
`repo_full_name` is `self.repo.full_name if self.repo else None`. -/
def SetupContext.toDict (c : SetupContext) : ContextDict :=
  { data := c.data
    project_id := c.project_id
    job_id := c.job_id
    user_context := c.user_context
    project_name := c.project_name
    repo_full_name := c.repo.map Repo.full_name
    vercel_info := c.vercel_info
    frontend_url := c.frontend_url
    error := c.error
    completed_steps := c.completed_steps.val }

/-- Embedding of the repo-reconnection block at the end of
`SetupContext.from_dict`.  `lookup org name` models
`Github(...).get_organization(org).get_repo(name)`: `none` when the GitHub
calls raise (the exception is caught and only a warning is printed).  The
stored name is split on "/" and must yield exactly two parts, else the
tuple unpacking raises `ValueError`, also caught.  A stored empty string is
falsy in Python, so no reconnection is attempted for it. -/
def reconnectRepo (lookup : String → String → Option Repo) :
    Option String → Option Repo
  | none => none
  | some fn =>
      if fn == "" then none
      else
        match fn.splitOn "/" with
        | [orgName, repoName] => lookup orgName repoName
        | _ => none

/-- Embedding of `SetupContext.from_dict`: builds a fresh context from the
serialized `data` payload, overwrites the serialized fields, rebuilds the
`completed_steps` set with `set(...)`, and reconnects the repository handle
from `repo_full_name` alone. -/
def SetupContext.fromDict (lookup : String → String → Option Repo)
    (d : ContextDict) (pid jid : String) : SetupContext :=
  let c0 := SetupContext.init d.data pid jid
  { c0 with
    user_context := d.user_context
    project_name := d.project_name
    vercel_info := d.vercel_info
    frontend_url := d.frontend_url
    error := d.error
    completed_steps := d.completed_steps.toFinset
    repo := reconnectRepo lookup d.repo_full_name }

/-! ## CodeService (code_service.py) -/

/-- Construction-time configuration of `CodeService` that the embedded
functions read: the `manual_sandbox_termination` flag. -/
structure CSConfig where
  manualSandboxTermination : Bool
deriving DecidableEq, Repr

/-- The mutable resource state of a `CodeService`: whether `self.sandbox`
currently holds a sandbox (`terminate_sandbox` is a no-op when it does
not).  `self.repo_dir` is the plain string path returned by
`tempfile.mkdtemp()`; being a `str` it has no `cleanup` attribute, which
matters on the teardown path of `_run_build_in_sandbox`. -/
structure CSState where
  sandbox : Bool
deriving DecidableEq, Repr

/-- One observable effect of the validation loop, in program order.
`coderCall` marks an invocation of `coder.run` (the AI Code Modifier) with
its prompt; `buildCall` marks an invocation of `_run_build_in_sandbox`. -/
inductive CEffect where
  | addLog (channel msg : String)
  | updateJobStatus (status : String) (err : Option String)
  | coderCall (prompt : String)
  | buildCall
  | terminateSandbox
  | cloneCall
  | createSandboxCall
  | installExec
  | gitPush
deriving DecidableEq, Repr

/-- Detects an AI Code Modifier invocation. -/
def CEffect.isCoderCall : CEffect → Bool
  | .coderCall _ => true
  | _ => false

/-- Detects a `_run_build_in_sandbox` invocation. -/
def CEffect.isBuildCall : CEffect → Bool
  | .buildCall => true
  | _ => false

/-- The status string of an `update_job_status` effect, if any. -/
def CEffect.statusOf : CEffect → Option String
  | .updateJobStatus s _ => some s
  | _ => none

/-- Detects an `add_log` effect. -/
def CEffect.isAddLog : CEffect → Bool
  | .addLog _ _ => true
  | _ => false

/-- Detects an `update_job_status` effect. -/
def CEffect.isStatus : CEffect → Bool
  | .updateJobStatus _ _ => true
  | _ => false

/-- Detects a sandbox termination. -/
def CEffect.isTerminate : CEffect → Bool
  | .terminateSandbox => true
  | _ => false

/-- Behaviour of one sandbox build run, as seen by
`_run_build_in_sandbox`: whether `sandbox.exec` / the stream draining /
`process.wait` raises (with the exception message), the lines produced on
the two streams, and `process.returncode`. -/
structure BuildOracle where
  execThrows : Option String
  stdoutLines : List String
  stderrLines : List String
  returncode : Int
deriving DecidableEq, Repr

/-- The captured build log list: stdout lines fully drained then stderr
lines, each `str.strip()`ped as it is appended. -/
def capture (o : BuildOracle) : List String :=
  o.stdoutLines.map pyStrip ++ o.stderrLines.map pyStrip

/-- The build-failure classification `has_error_in_logs`: some captured
line, lowercased, contains "error", "failed" or "exited with 1" as a
substring.  The process exit code plays no part. -/
def hasErrorInLogs (logs : List String) : Bool :=
  logs.any fun line =>
    strContains (pyLower line) "error" || strContains (pyLower line) "failed" ||
      strContains (pyLower line) "exited with 1"

/-- The noise URLs dropped by `clean_log_lines`. -/
def urlsToSkip : List String := ["nextjs.org/telemetry", "vercel.com/docs/analytics"]

/-- Embedding of `clean_log_lines`: keeps, in order, the non-empty lines
that do not start with "warning" and contain none of the noise URLs. -/
def cleanLogLines (logs : List String) : List String :=
  logs.filter fun line =>
    !(line == "") && !(pyStartsWith line "warning") &&
      !(urlsToSkip.any fun url => strContains line url)

/-- Embedding of `get_error_fix_prompt_from_logs`: the f-string template
with the log text interpolated. -/
def getErrorFixPromptFromLogs (logs : String) : String :=
  "\n    The previous changes caused build errors. Please fix them.\n    Here are the build logs showing the errors:\n    \n    " ++
    logs ++
    "\n    \n    Please analyze these errors and make the necessary corrections to fix the build.\n    "

/-- The value `_run_build_in_sandbox` hands back to its caller: either the
annotated `(bool, str)` tuple, or — from the `except` clause — the Python
dict with keys "status" and "error" (in that insertion order). -/
inductive BuildRet where
  | tup (hasErrors : Bool) (logs : String)
  | dict (statusVal errorVal : String)
deriving DecidableEq, Repr

/-- A Python value bound by the caller's tuple unpacking
`has_errors, logs = self._run_build_in_sandbox(...)`. -/
inductive PyV where
  | pb (b : Bool)
  | ps (s : String)
deriving DecidableEq, Repr

/-- Python truthiness of such a value. -/
def PyV.truthy : PyV → Bool
  | .pb b => b
  | .ps s => !(s == "")

/-- Python `str()` of such a value, as interpolated into an f-string. -/
def PyV.toStr : PyV → String
  | .pb b => if b then "True" else "False"
  | .ps s => s

/-- Tuple unpacking of the value returned by `_run_build_in_sandbox`.
Unpacking a two-entry Python dict binds the two **keys** in insertion
order, so the dict case yields the strings "status" and "error". -/
def unpackBuildRet : BuildRet → PyV × PyV
  | .tup h l => (.pb h, .ps l)
  | .dict _ _ => (.ps "status", .ps "error")

/-- The outcome of one `_run_build_in_sandbox` call. -/
structure BuildOut where
  ret : BuildRet
  effects : List CEffect
  final : CSState
deriving DecidableEq, Repr

/-- Embedding of `CodeService.terminate_sandbox`: emits a termination only
when a sandbox exists.  Errors raised by `sandbox.terminate()` are caught
and printed inside the method, so it never raises. -/
def terminateSandboxEffects (st : CSState) : List CEffect :=
  if st.sandbox then [CEffect.terminateSandbox] else []

/-- Embedding of `CodeService._run_build_in_sandbox`.

The body runs under a `try`: on any exception the `except` clause adds a
"build" log entry, sets the job status to "failed" and returns the dict
rather than the tuple.  Two exception sources are modelled:

* the sandbox exec / stream draining / wait raising (`o.execThrows`);
* the teardown path: with `terminate_after_build` true and
  `manual_sandbox_termination` false the code calls
  `self.terminate_sandbox()` and then `self.repo_dir.cleanup()` — but
  `repo_dir` is the `str` returned by `tempfile.mkdtemp()`, so the
  attribute access raises `AttributeError` (message: str object has no
  attribute named cleanup; Python quotes the two names).

`process.returncode` is read only for a print statement and does not
influence the result. -/
def runBuildInSandbox (cfg : CSConfig) (st : CSState) (o : BuildOracle)
    (terminateAfterBuild : Bool) : BuildOut :=
  match o.execThrows with
  | some m =>
      let em := "Build failed: " ++ m
      { ret := .dict "error" em
        effects := [.buildCall, .addLog "build" em,
          .updateJobStatus "failed" (some em)]
        final := st }
  | none =>
      let logs := capture o
      let he := hasErrorInLogs logs
      let ls := String.intercalate "\n" (cleanLogLines logs)
      if terminateAfterBuild && !cfg.manualSandboxTermination then
        let em := "Build failed: str object has no attribute cleanup"
        { ret := .dict "error" em
          effects := [CEffect.buildCall] ++ terminateSandboxEffects st ++
            [.addLog "build" em, .updateJobStatus "failed" (some em)]
          final := { sandbox := false } }
      else
        { ret := .tup he ls, effects := [.buildCall], final := st }

/-- Behaviour of the external collaborators during one `CodeService.run`
call: the two possible `coder.run` invocations (result text, or an
exception message), the two possible sandbox build runs, and the git state
consulted by `_sync_git_changes`. -/
structure RunOracle where
  coder1 : Except String String
  coder2 : Except String String
  build1 : BuildOracle
  build2 : BuildOracle
  gitDirty : Bool
  gitAhead : Nat
  gitSyncThrows : Bool

/-- The outcome of one `CodeService.run` call: the effect trace, the
exception propagated to the caller (if any), the returned
`(status, result)` pair otherwise, and the final resource state. -/
structure RunOut where
  effects : List CEffect
  raised : Option String
  result : Option (String × String)
  final : CSState
deriving DecidableEq, Repr

/-- Embedding of `_sync_git_changes`, reached when `repo.is_dirty()`:
computes the ahead count and pushes when it is positive; a
`GitCommandError` anywhere in it is caught and printed, never propagated. -/
def syncEffects (o : RunOracle) : List CEffect :=
  if o.gitDirty && !o.gitSyncThrows && !(o.gitAhead == 0) then
    [CEffect.gitPush]
  else []

/-- The tail of the `try` block of `run` after the build loop: the git
synchronization, the final "completed" status write, and the success
return carrying the last `aider_result`. -/
def finishRun (st : CSState) (o : RunOracle) (effs : List CEffect)
    (aiderResult : String) : RunOut :=
  { effects := effs ++ syncEffects o ++ [.updateJobStatus "completed" none]
    raised := none
    result := some ("success", aiderResult)
    final := st }

/-- The `except` clause of `run`: log "Aider run failed: ...", set the job
status to "failed", attempt sandbox termination, re-raise. -/
def runExceptClause (st : CSState) (effs : List CEffect) (m : String) :
    RunOut :=
  let em := "Aider run failed: " ++ m
  { effects := effs ++ [.addLog "backend" em,
      .updateJobStatus "failed" (some em)] ++ terminateSandboxEffects st
    raised := some m
    result := none
    final := { sandbox := false } }

/-- Embedding of `CodeService.run`.  File-name bookkeeping and the aider
object construction are pure local computations with no observable effect
and are elided; the first observable step is the "running" status write. -/
def runCS (cfg : CSConfig) (st : CSState) (o : RunOracle) (prompt : String) :
    RunOut :=
  let e0 : List CEffect := [.updateJobStatus "running" none]
  match o.coder1 with
  | .error m => runExceptClause st (e0 ++ [.coderCall prompt]) m
  | .ok a1 =>
      let b1 := runBuildInSandbox cfg st o.build1 false
      let u1 := unpackBuildRet b1.ret
      let effs1 := e0 ++ [.coderCall prompt] ++ b1.effects
      if u1.1.truthy then
        let fixPrompt := getErrorFixPromptFromLogs u1.2.toStr
        match o.coder2 with
        | .error m =>
            runExceptClause b1.final (effs1 ++ [.coderCall fixPrompt]) m
        | .ok a2 =>
            let b2 := runBuildInSandbox cfg b1.final o.build2 true
            let u2 := unpackBuildRet b2.ret
            let effs2 := effs1 ++ [.coderCall fixPrompt] ++ b2.effects ++
              (if u2.1.truthy then
                [CEffect.addLog "backend"
                  "Build errors could not be automatically fixed"]
              else [])
            finishRun b2.final o effs2 a2
      else
        finishRun b1.final o effs1 a1

/-- Behaviour of the external calls made by `CodeService._setup`, in call
order: `db.get_project`, `clone_repo_url_to_dir`, `modal.Sandbox.create`,
and the `pnpm install` exec.  Each is `some msg` when it raises. -/
structure SetupOracle where
  getProjectThrows : Option String
  cloneThrows : Option String
  createSandboxThrows : Option String
  installThrows : Option String
deriving DecidableEq, Repr

/-- The outcome of `CodeService._setup` (run by `__init__`). -/
structure SetupOut where
  effects : List CEffect
  raised : Option String
  final : CSState
deriving DecidableEq, Repr

/-- Embedding of `CodeService._setup`.  The method has no `try`/`except`:
the first exception propagates out of the constructor with no log entry,
no job-status write and no sandbox termination. -/
def setupCS (o : SetupOracle) : SetupOut :=
  match o.getProjectThrows with
  | some m => { effects := [], raised := some m, final := { sandbox := false } }
  | none =>
  match o.cloneThrows with
  | some m =>
      { effects := [.cloneCall], raised := some m, final := { sandbox := false } }
  | none =>
  match o.createSandboxThrows with
  | some m =>
      { effects := [.cloneCall, .createSandboxCall], raised := some m
        final := { sandbox := false } }
  | none =>
  match o.installThrows with
  | some m =>
      { effects := [.cloneCall, .createSandboxCall, .installExec]
        raised := some m, final := { sandbox := true } }
  | none =>
      { effects := [.cloneCall, .createSandboxCall, .installExec]
        raised := none, final := { sandbox := true } }

/-! ## Concrete collaborator behaviours used as test inputs below -/

/-- A build run that raises nothing and prints nothing. -/
def quietBuild : BuildOracle :=
  { execThrows := none, stdoutLines := [], stderrLines := [], returncode := 0 }

/-- A `_setup` run whose clone step raises `m`. -/
def cloneFailSetup (m : String) : SetupOracle :=
  { getProjectThrows := none, cloneThrows := some m,
    createSandboxThrows := none, installThrows := none }

/-- A `_setup` run whose sandbox creation raises `m`. -/
def sandboxFailSetup (m : String) : SetupOracle :=
  { getProjectThrows := none, cloneThrows := none,
    createSandboxThrows := some m, installThrows := none }

/-- A `_setup` run whose install step raises `m`. -/
def installFailSetup (m : String) : SetupOracle :=
  { getProjectThrows := none, cloneThrows := none,
    createSandboxThrows := none, installThrows := some m }

/-- A `run` call whose first coder invocation raises `m` and whose other
collaborators are quiet. -/
def coderFailRun (m : String) : RunOracle :=
  { coder1 := Except.error m, coder2 := Except.ok "unused",
    build1 := quietBuild, build2 := quietBuild,
    gitDirty := false, gitAhead := 0, gitSyncThrows := false }

/-! ## Theorems about the state machine -/

/-- C4: `to_dict` followed by `from_dict` (with the same `project_id` and
`job_id`) reproduces `data`, `project_id`, `job_id`, `user_context`,
`project_name`, `vercel_info`, `frontend_url`, `error` and
`completed_steps`; the live repository handle is the one field not stored,
and the serialized dict carries exactly the repository's full name, from
which alone `from_dict` re-derives the handle. -/
theorem setupContext_roundtrip (c : SetupContext)
    (lookup : String → String → Option Repo) :
    (SetupContext.fromDict lookup (SetupContext.toDict c) c.project_id c.job_id).data = c.data ∧
    (SetupContext.fromDict lookup (SetupContext.toDict c) c.project_id c.job_id).project_id = c.project_id ∧
    (SetupContext.fromDict lookup (SetupContext.toDict c) c.project_id c.job_id).job_id = c.job_id ∧
    (SetupContext.fromDict lookup (SetupContext.toDict c) c.project_id c.job_id).user_context = c.user_context ∧
    (SetupContext.fromDict lookup (SetupContext.toDict c) c.project_id c.job_id).project_name = c.project_name ∧
    (SetupContext.fromDict lookup (SetupContext.toDict c) c.project_id c.job_id).vercel_info = c.vercel_info ∧
    (SetupContext.fromDict lookup (SetupContext.toDict c) c.project_id c.job_id).frontend_url = c.frontend_url ∧
    (SetupContext.fromDict lookup (SetupContext.toDict c) c.project_id c.job_id).error = c.error ∧
    (SetupContext.fromDict lookup (SetupContext.toDict c) c.project_id c.job_id).completed_steps = c.completed_steps ∧
    (SetupContext.toDict c).repo_full_name = c.repo.map Repo.full_name := by
  refine ⟨rfl, rfl, rfl, rfl, rfl, rfl, rfl, rfl, ?_, rfl⟩
  simp [SetupContext.fromDict, SetupContext.toDict, SetupContext.init,
    Finset.val_toFinset]

/-- C5: `advance` never persists the `(SetupContext, SetupState)`
checkpoint pair.  Its only database writes are log lines and job-status
strings; the checkpoint-store save operation is absent from every effect
trace, for every starting state and every stage-body outcome. -/
theorem advance_never_saves_checkpoint (m : MState) (o : Option String) :
    (advance m o).effects.filter Effect.isSave = [] := by
  rcases m with ⟨s, e⟩
  cases o <;> cases s <;>
    simp [advance, nextStage, transitionTo, handleError, transitions,
      logStateEffect, statusEffect, Effect.isSave, List.filter]

/-- C1 (counterexample): from the non-terminal state NOTIFICATION, a
stage-body exception is not absorbed — `advance` first transitions to
COMPLETE, the forced transition to FAILED is then rejected by the normal
edge check of `_transition_to` (COMPLETE has no outgoing edges), and the
resulting `ValueError` propagates to the caller; the machine does not end
in FAILED. -/
theorem advance_notification_exception_propagates :
    (advance { state := SetupState.NOTIFICATION, error := none } (some "boom")).raised ≠ none ∧
    (advance { state := SetupState.NOTIFICATION, error := none } (some "boom")).final.state ≠ SetupState.FAILED := by
  decide

/-- C1 (amended): for every non-terminal state other than NOTIFICATION, a
stage-body exception during `advance` is caught: the exception message is
stored in `context.error`, the machine reaches FAILED through the normal
checked transition (FAILED is an allowed target of the stage's target
state), the final job-status write is "failed", FAILED is returned and
nothing propagates.  For NOTIFICATION the stage body runs after the
transition into COMPLETE, so the handler's transition to FAILED fails the
edge check and `advance` propagates a `ValueError` while the machine stays
in COMPLETE. -/
theorem advance_stage_exception_handling (s : SetupState) (e0 : Option String)
    (msg : String) (h1 : s ≠ SetupState.COMPLETE) (h2 : s ≠ SetupState.FAILED) :
    (s ≠ SetupState.NOTIFICATION →
      (advance { state := s, error := e0 } (some msg)).raised = none ∧
      (advance { state := s, error := e0 } (some msg)).final.state = SetupState.FAILED ∧
      (advance { state := s, error := e0 } (some msg)).final.error = some msg ∧
      (advance { state := s, error := e0 } (some msg)).ret = some SetupState.FAILED ∧
      (advance { state := s, error := e0 } (some msg)).effects.getLast? =
        some (Effect.updateJobStatus "failed"
          (some ("Error in " ++ stateValue SetupState.FAILED ++ ": " ++ msg)))) ∧
    (s = SetupState.NOTIFICATION →
      (advance { state := s, error := e0 } (some msg)).raised =
        some (invalidMsg SetupState.COMPLETE SetupState.FAILED) ∧
      (advance { state := s, error := e0 } (some msg)).final.state = SetupState.COMPLETE ∧
      (advance { state := s, error := e0 } (some msg)).final.error = some msg ∧
      (advance { state := s, error := e0 } (some msg)).ret = none) := by
  cases s <;>
    simp_all [advance, nextStage, transitionTo, handleError, transitions,
      logStateEffect, statusEffect, stateValue]

/-- Witness for `advance_stage_exception_handling` at the INIT state with
message "boom". -/
theorem advance_stage_exception_handling_witness :
    (advance { state := SetupState.INIT, error := none } (some "boom")).raised = none ∧
    (advance { state := SetupState.INIT, error := none } (some "boom")).final.state = SetupState.FAILED ∧
    (advance { state := SetupState.INIT, error := none } (some "boom")).final.error = some "boom" ∧
    (advance { state := SetupState.INIT, error := none } (some "boom")).ret = some SetupState.FAILED ∧
    (advance { state := SetupState.INIT, error := none } (some "boom")).effects.getLast? =
      some (Effect.updateJobStatus "failed"
        (some ("Error in " ++ stateValue SetupState.FAILED ++ ": " ++ "boom"))) :=
  (advance_stage_exception_handling SetupState.INIT none "boom" (by decide)
    (by decide)).1 (by decide)

/-- C6 (counterexample): from state INIT, when a stage body raises "boom",
the machine does end in FAILED, but the failure log entry reads
"Error in failed: boom" — it names the FAILED state, because
`_handle_error` runs after the transition to FAILED and formats
`self.state.value`.  No log entry names the state in which the failure
occurred (the transition chain passed INIT → VALIDATING). -/
theorem advance_failure_log_counterexample :
    Effect.addLog "backend" "Error in failed: boom" ∈
      (advance { state := SetupState.INIT, error := none } (some "boom")).effects ∧
    Effect.addLog "backend" "Error in init: boom" ∉
      (advance { state := SetupState.INIT, error := none } (some "boom")).effects ∧
    Effect.addLog "backend" "Error in validating: boom" ∉
      (advance { state := SetupState.INIT, error := none } (some "boom")).effects ∧
    (advance { state := SetupState.INIT, error := none } (some "boom")).final.state =
      SetupState.FAILED := by
  decide

/-- C6 (amended): for every state other than FAILED, COMPLETE and
NOTIFICATION, if the stage body throws during `advance`, the resulting
state is FAILED and `context.error` holds the exception message, and the
single failure log entry on the "backend" channel names the FAILED state
("Error in failed: ..."), not the state in which the failure occurred. -/
theorem advance_failure_log_names_failed (s : SetupState) (e0 : Option String)
    (msg : String) (h1 : s ≠ SetupState.COMPLETE) (h2 : s ≠ SetupState.FAILED)
    (h3 : s ≠ SetupState.NOTIFICATION) :
    (advance { state := s, error := e0 } (some msg)).final.state = SetupState.FAILED ∧
    (advance { state := s, error := e0 } (some msg)).final.error = some msg ∧
    (advance { state := s, error := e0 } (some msg)).effects.filter Effect.isBackendLog =
      [Effect.addLog "backend" ("Error in " ++ stateValue SetupState.FAILED ++ ": " ++ msg)] := by
  cases s <;>
    simp_all [advance, nextStage, transitionTo, handleError, transitions,
      logStateEffect, statusEffect, stateValue, Effect.isBackendLog, List.filter]

/-- Witness for `advance_failure_log_names_failed` at the CODE_UPDATE state
with message "kaboom". -/
theorem advance_failure_log_names_failed_witness :
    (advance { state := SetupState.CODE_UPDATE, error := none } (some "kaboom")).final.state = SetupState.FAILED ∧
    (advance { state := SetupState.CODE_UPDATE, error := none } (some "kaboom")).final.error = some "kaboom" ∧
    (advance { state := SetupState.CODE_UPDATE, error := none } (some "kaboom")).effects.filter Effect.isBackendLog =
      [Effect.addLog "backend" ("Error in " ++ stateValue SetupState.FAILED ++ ": " ++ "kaboom")] :=
  advance_failure_log_names_failed SetupState.CODE_UPDATE none "kaboom"
    (by decide) (by decide) (by decide)

/-! ## Theorems about the validation loop -/


/-- Helper: a `_run_build_in_sandbox` call performs no AI Code Modifier
invocation. -/
theorem runBuild_no_coderCalls (cfg : CSConfig) (st : CSState)
    (o : BuildOracle) (tb : Bool) :
    (runBuildInSandbox cfg st o tb).effects.filter CEffect.isCoderCall = [] := by
  obtain ⟨mst⟩ := cfg
  obtain ⟨sb⟩ := st
  obtain ⟨et, so, se, rc⟩ := o
  cases et <;> cases tb <;> cases mst <;> cases sb <;> rfl

/-- Helper: a `_run_build_in_sandbox` call carries exactly one build-call
marker. -/
theorem runBuild_one_buildCall (cfg : CSConfig) (st : CSState)
    (o : BuildOracle) (tb : Bool) :
    (runBuildInSandbox cfg st o tb).effects.filter CEffect.isBuildCall =
      [CEffect.buildCall] := by
  obtain ⟨mst⟩ := cfg
  obtain ⟨sb⟩ := st
  obtain ⟨et, so, se, rc⟩ := o
  cases et <;> cases tb <;> cases mst <;> cases sb <;> rfl

/-- Helper: the git synchronization performs no AI or build invocation. -/
theorem syncEffects_no_calls (o : RunOracle) :
    (syncEffects o).filter CEffect.isCoderCall = [] ∧
    (syncEffects o).filter CEffect.isBuildCall = [] := by
  unfold syncEffects
  split <;> exact ⟨rfl, rfl⟩

/-- Helper: sandbox termination performs no AI or build invocation. -/
theorem terminateSandboxEffects_no_calls (st : CSState) :
    (terminateSandboxEffects st).filter CEffect.isCoderCall = [] ∧
    (terminateSandboxEffects st).filter CEffect.isBuildCall = [] := by
  unfold terminateSandboxEffects
  split <;> exact ⟨rfl, rfl⟩

/-- Helper: the AI Code Modifier invocations recorded by one
`CodeService.run` call, in order: always the initial prompt; and, exactly
when the value unpacked from the first build call is truthy, one fix
prompt built from the logs component of that value. -/
theorem runCS_coderCalls_char (cfg : CSConfig) (st : CSState) (o : RunOracle)
    (p : String) :
    (runCS cfg st o p).effects.filter CEffect.isCoderCall =
      match o.coder1 with
      | .error _ => [CEffect.coderCall p]
      | .ok _ =>
          if (unpackBuildRet (runBuildInSandbox cfg st o.build1 false).ret).1.truthy then
            [CEffect.coderCall p,
             CEffect.coderCall (getErrorFixPromptFromLogs
               (unpackBuildRet (runBuildInSandbox cfg st o.build1 false).ret).2.toStr)]
          else [CEffect.coderCall p] := by
  unfold runCS
  cases o.coder1 with
  | error m =>
      simp [runExceptClause, List.filter_append, List.filter, CEffect.isCoderCall,
        (terminateSandboxEffects_no_calls _).1]
  | ok a1 =>
      by_cases h1 : (unpackBuildRet (runBuildInSandbox cfg st o.build1 false).ret).1.truthy
      · simp only [h1, if_true]
        cases o.coder2 with
        | error m =>
            simp [runExceptClause, List.filter_append, List.filter, CEffect.isCoderCall,
              runBuild_no_coderCalls, (terminateSandboxEffects_no_calls _).1]
        | ok a2 =>
            simp [finishRun, List.filter_append, List.filter, CEffect.isCoderCall,
              runBuild_no_coderCalls, (syncEffects_no_calls _).1]
      · simp only [h1, if_false]
        simp [finishRun, List.filter_append, List.filter, CEffect.isCoderCall,
          runBuild_no_coderCalls, (syncEffects_no_calls _).1]

/-- Helper: the `_run_build_in_sandbox` invocations recorded by one
`CodeService.run` call: none when the first coder call raises, one when
the first build's unpacked value is falsy or the second coder call raises
before the retry build, two otherwise. -/
theorem runCS_buildCalls_char (cfg : CSConfig) (st : CSState) (o : RunOracle)
    (p : String) :
    (runCS cfg st o p).effects.filter CEffect.isBuildCall =
      match o.coder1 with
      | .error _ => []
      | .ok _ =>
          if (unpackBuildRet (runBuildInSandbox cfg st o.build1 false).ret).1.truthy then
            match o.coder2 with
            | .error _ => [CEffect.buildCall]
            | .ok _ => [CEffect.buildCall, CEffect.buildCall]
          else [CEffect.buildCall] := by
  unfold runCS
  cases o.coder1 with
  | error m =>
      simp [runExceptClause, List.filter_append, List.filter, CEffect.isBuildCall,
        (terminateSandboxEffects_no_calls _).2]
  | ok a1 =>
      by_cases h1 : (unpackBuildRet (runBuildInSandbox cfg st o.build1 false).ret).1.truthy
      · simp only [h1, if_true]
        cases o.coder2 with
        | error m =>
            simp [runExceptClause, List.filter_append, List.filter, CEffect.isBuildCall,
              runBuild_one_buildCall, (terminateSandboxEffects_no_calls _).2]
        | ok a2 =>
            simp [finishRun, List.filter_append, List.filter, CEffect.isBuildCall,
              runBuild_one_buildCall, (syncEffects_no_calls _).2]
      · simp only [h1, if_false]
        simp [finishRun, List.filter_append, List.filter, CEffect.isBuildCall,
          runBuild_one_buildCall, (syncEffects_no_calls _).2]

/-- C3: however the external collaborators behave — the AI coder may
return or raise, the builds may be classified as failed or not, or raise
inside the sandbox — one `CodeService.run` call invokes the AI Code
Modifier (`coder.run`) at most twice and the sandbox build command
(`_run_build_in_sandbox`) at most twice. -/
theorem runCS_bounded_invocations (cfg : CSConfig) (st : CSState)
    (o : RunOracle) (p : String) :
    ((runCS cfg st o p).effects.filter CEffect.isCoderCall).length ≤ 2 ∧
    ((runCS cfg st o p).effects.filter CEffect.isBuildCall).length ≤ 2 := by
  refine ⟨?_, ?_⟩
  · rw [runCS_coderCalls_char]
    cases o.coder1 with
    | error m => simp
    | ok a1 =>
        by_cases h1 : (unpackBuildRet (runBuildInSandbox cfg st o.build1 false).ret).1.truthy = true
        · rw [if_pos h1]; simp
        · rw [if_neg h1]; simp
  · rw [runCS_buildCalls_char]
    cases o.coder1 with
    | error m => show ([] : List CEffect).length ≤ 2; decide
    | ok a1 =>
        by_cases h1 : (unpackBuildRet (runBuildInSandbox cfg st o.build1 false).ret).1.truthy = true
        · rw [if_pos h1]
          cases o.coder2 with
          | error m => show [CEffect.buildCall].length ≤ 2; decide
          | ok a2 => show [CEffect.buildCall, CEffect.buildCall].length ≤ 2; decide
        · rw [if_neg h1]
          show [CEffect.buildCall].length ≤ 2; decide

/-- Helper: when the sandbox exec does not raise and no teardown is
requested (either `terminate_after_build` is false or manual termination
is configured), `_run_build_in_sandbox` returns the annotated tuple whose
flag is the log classification over the captured lines and whose string is
the cleaned log text. -/
theorem runBuild_tuple_case (cfg : CSConfig) (st : CSState) (o : BuildOracle)
    (tb : Bool) (h : o.execThrows = none)
    (htb : (tb && !cfg.manualSandboxTermination) = false) :
    runBuildInSandbox cfg st o tb =
      { ret := BuildRet.tup (hasErrorInLogs (capture o))
          (String.intercalate "\n" (cleanLogLines (capture o)))
        effects := [CEffect.buildCall]
        final := st } := by
  unfold runBuildInSandbox
  rw [h, htb]
  rfl

/-- Helper: when the sandbox exec does not raise but teardown is requested
without manual termination, the `repo_dir.cleanup()` call on the
`mkdtemp()` string raises, the `except` clause runs, and the dict is
returned. -/
theorem runBuild_teardown_case (cfg : CSConfig) (st : CSState) (o : BuildOracle)
    (h : o.execThrows = none) (hm : cfg.manualSandboxTermination = false) :
    runBuildInSandbox cfg st o true =
      { ret := BuildRet.dict "error"
          "Build failed: str object has no attribute cleanup"
        effects := [CEffect.buildCall] ++ terminateSandboxEffects st ++
          [CEffect.addLog "build" "Build failed: str object has no attribute cleanup",
           CEffect.updateJobStatus "failed"
             (some "Build failed: str object has no attribute cleanup")]
        final := { sandbox := false } } := by
  unfold runBuildInSandbox
  rw [h, hm]
  rfl

/-- Helper: the trace of `finishRun` ends with the "completed" job-status
write, so the last status written during the call is "completed"; and
`finishRun` raises nothing and returns the success pair. -/
theorem finishRun_facts (st : CSState) (o : RunOracle) (effs : List CEffect)
    (a : String) :
    ((finishRun st o effs a).effects.filterMap CEffect.statusOf).getLast? =
      some "completed" ∧
    (finishRun st o effs a).raised = none ∧
    (finishRun st o effs a).result = some ("success", a) := by
  refine ⟨?_, rfl, rfl⟩
  show (List.filterMap CEffect.statusOf
    (effs ++ syncEffects o ++ [CEffect.updateJobStatus "completed" none])).getLast? =
    some "completed"
  rw [List.filterMap_append]
  simp [CEffect.statusOf]

/-- C2: when both sandbox builds are classified as failed (over their
captured lines) and both coder invocations return, `CodeService.run` logs
"Build errors could not be automatically fixed", raises nothing, returns
the success result carrying the second (last) coder result, and the last
job status it writes is "completed". -/
theorem runCS_double_build_failure (cfg : CSConfig) (st : CSState)
    (o : RunOracle) (p a1 a2 : String)
    (h1 : o.coder1 = Except.ok a1) (h2 : o.coder2 = Except.ok a2)
    (h3 : o.build1.execThrows = none)
    (h4 : hasErrorInLogs (capture o.build1) = true)
    (h5 : o.build2.execThrows = none)
    (h6 : hasErrorInLogs (capture o.build2) = true) :
    (runCS cfg st o p).raised = none ∧
    (runCS cfg st o p).result = some ("success", a2) ∧
    CEffect.addLog "backend" "Build errors could not be automatically fixed" ∈
      (runCS cfg st o p).effects ∧
    ((runCS cfg st o p).effects.filterMap CEffect.statusOf).getLast? =
      some "completed" := by
  unfold runCS
  rw [h1, runBuild_tuple_case cfg st o.build1 false h3 (by simp), h2]
  simp only [unpackBuildRet, PyV.truthy, h4, if_true]
  cases hm : cfg.manualSandboxTermination with
  | false =>
      rw [runBuild_teardown_case cfg st o.build2 h5 hm]
      simp only [unpackBuildRet, PyV.truthy]
      refine ⟨(finishRun_facts _ _ _ _).2.1, (finishRun_facts _ _ _ _).2.2, ?_,
        (finishRun_facts _ _ _ _).1⟩
      simp [finishRun]
  | true =>
      rw [runBuild_tuple_case cfg st o.build2 true h5 (by simp [hm])]
      simp only [unpackBuildRet, PyV.truthy, h6, if_true]
      refine ⟨(finishRun_facts _ _ _ _).2.1, (finishRun_facts _ _ _ _).2.2, ?_,
        (finishRun_facts _ _ _ _).1⟩
      simp [finishRun]

/-- Witness for `runCS_double_build_failure`: both builds emit an
"Error: ..." line, both coder calls return. -/
theorem runCS_double_build_failure_witness :
    (runCS { manualSandboxTermination := false } { sandbox := true }
      { coder1 := Except.ok "first result", coder2 := Except.ok "second result",
        build1 :=
          { execThrows := none,
            stdoutLines := ["Error: cannot find module"], stderrLines := [],
            returncode := 1 },
        build2 :=
          { execThrows := none,
            stdoutLines := ["Error: cannot find module"], stderrLines := [],
            returncode := 1 },
        gitDirty := false, gitAhead := 0, gitSyncThrows := false }
      "add a footer").raised = none ∧
    (runCS { manualSandboxTermination := false } { sandbox := true }
      { coder1 := Except.ok "first result", coder2 := Except.ok "second result",
        build1 :=
          { execThrows := none,
            stdoutLines := ["Error: cannot find module"], stderrLines := [],
            returncode := 1 },
        build2 :=
          { execThrows := none,
            stdoutLines := ["Error: cannot find module"], stderrLines := [],
            returncode := 1 },
        gitDirty := false, gitAhead := 0, gitSyncThrows := false }
      "add a footer").result = some ("success", "second result") ∧
    CEffect.addLog "backend" "Build errors could not be automatically fixed" ∈
      (runCS { manualSandboxTermination := false } { sandbox := true }
        { coder1 := Except.ok "first result", coder2 := Except.ok "second result",
          build1 :=
              { execThrows := none,
                stdoutLines := ["Error: cannot find module"], stderrLines := [],
                returncode := 1 },
          build2 :=
              { execThrows := none,
                stdoutLines := ["Error: cannot find module"], stderrLines := [],
                returncode := 1 },
          gitDirty := false, gitAhead := 0, gitSyncThrows := false }
        "add a footer").effects ∧
    ((runCS { manualSandboxTermination := false } { sandbox := true }
      { coder1 := Except.ok "first result", coder2 := Except.ok "second result",
        build1 :=
          { execThrows := none,
            stdoutLines := ["Error: cannot find module"], stderrLines := [],
            returncode := 1 },
        build2 :=
          { execThrows := none,
            stdoutLines := ["Error: cannot find module"], stderrLines := [],
            returncode := 1 },
        gitDirty := false, gitAhead := 0, gitSyncThrows := false }
      "add a footer").effects.filterMap CEffect.statusOf).getLast? =
      some "completed" :=
  runCS_double_build_failure _ _ _ "add a footer" "first result" "second result"
    rfl rfl rfl (by decide) rfl (by decide)

/-- C7: the build run is classified as failed exactly when some captured
(stripped) line case-insensitively contains "error", "failed" or
"exited with 1" as a substring; and `_run_build_in_sandbox` is oblivious
to the process exit code — changing `returncode` changes nothing in its
result. -/
theorem build_classification_heuristic (o : BuildOracle) (rc : Int) :
    (hasErrorInLogs (capture o) = true ↔
      ∃ line ∈ capture o,
        strContains (pyLower line) "error" = true ∨
        strContains (pyLower line) "failed" = true ∨
        strContains (pyLower line) "exited with 1" = true) ∧
    (∀ cfg st tb,
      runBuildInSandbox cfg st { o with returncode := rc } tb =
        runBuildInSandbox cfg st o tb) := by
  constructor
  · simp [hasErrorInLogs, List.any_eq_true, Bool.or_eq_true, or_assoc]
  · intro cfg st tb
    obtain ⟨et, so, se, rc0⟩ := o
    rfl

set_option maxRecDepth 8192 in
/-- C8 (counterexample): first build fails with captured lines
"Error: boom" and "warning: old dep"; the fix instruction handed to the
retry embeds only the cleaned log text "Error: boom" — the captured
warning line is absent from it, so the instruction does not embed every
captured line of the run. -/
theorem fix_prompt_not_full_raw_logs :
    "warning: old dep" ∈ capture
      { execThrows := none, stdoutLines := ["Error: boom", "warning: old dep"],
        stderrLines := [], returncode := 1 } ∧
    (runCS { manualSandboxTermination := false } { sandbox := true }
      { coder1 := Except.ok "res one", coder2 := Except.ok "res two",
        build1 :=
          { execThrows := none,
            stdoutLines := ["Error: boom", "warning: old dep"],
            stderrLines := [], returncode := 1 },
        build2 :=
          { execThrows := none, stdoutLines := [], stderrLines := [],
            returncode := 0 },
        gitDirty := false, gitAhead := 0, gitSyncThrows := false }
      "add a footer").effects.filter CEffect.isCoderCall =
      [CEffect.coderCall "add a footer",
       CEffect.coderCall (getErrorFixPromptFromLogs "Error: boom")] ∧
    strContains (getErrorFixPromptFromLogs "Error: boom") "warning: old dep" =
      false := by
  decide

/-- C8 (amended): when the first build is classified as failed, the AI
Code Modifier is invoked exactly once more, and the fix instruction
embeds the cleaned log text of that run — the captured lines minus empty
lines, lines starting with "warning" and known noise URLs, joined with
newlines — not the full raw text. -/
theorem runCS_fix_prompt_embeds_cleaned_logs (cfg : CSConfig) (st : CSState)
    (o : RunOracle) (p a1 : String)
    (h1 : o.coder1 = Except.ok a1) (h2 : o.build1.execThrows = none)
    (h3 : hasErrorInLogs (capture o.build1) = true) :
    (runCS cfg st o p).effects.filter CEffect.isCoderCall =
      [CEffect.coderCall p,
       CEffect.coderCall (getErrorFixPromptFromLogs
         (String.intercalate "\n" (cleanLogLines (capture o.build1))))] := by
  rw [runCS_coderCalls_char, h1,
    runBuild_tuple_case cfg st o.build1 false h2 (by simp)]
  simp [unpackBuildRet, PyV.truthy, PyV.toStr, h3]

/-- Witness for `runCS_fix_prompt_embeds_cleaned_logs` on a failing first
build. -/
theorem runCS_fix_prompt_embeds_cleaned_logs_witness :
    (runCS { manualSandboxTermination := true } { sandbox := true }
      { coder1 := Except.ok "first res", coder2 := Except.ok "second res",
        build1 :=
          { execThrows := none,
            stdoutLines := ["Build failed", ""], stderrLines := [],
            returncode := 1 },
        build2 :=
          { execThrows := none, stdoutLines := [], stderrLines := [],
            returncode := 0 },
        gitDirty := false, gitAhead := 0, gitSyncThrows := false }
      "make it blue").effects.filter CEffect.isCoderCall =
      [CEffect.coderCall "make it blue",
       CEffect.coderCall (getErrorFixPromptFromLogs
         (String.intercalate "\n" (cleanLogLines (capture
           { execThrows := none,
             stdoutLines := ["Build failed", ""], stderrLines := [],
             returncode := 1 }))))] :=
  runCS_fix_prompt_embeds_cleaned_logs _ _ _ "make it blue" "first res"
    rfl rfl (by decide)


/-- C9 (counterexample): when the clone step of `_setup` raises, the
exception propagates out of the constructor, but nothing is logged, the
job status is never touched and no sandbox termination is attempted —
`_setup` has no exception handler, and `run`'s handler never runs because
`run` is never reached. -/
theorem setup_clone_failure_unhandled :
    (setupCS (cloneFailSetup "clone failed")).raised = some "clone failed" ∧
    (setupCS (cloneFailSetup "clone failed")).effects = [CEffect.cloneCall] ∧
    (setupCS (cloneFailSetup "clone failed")).effects.filter CEffect.isAddLog = [] ∧
    (setupCS (cloneFailSetup "clone failed")).effects.filter CEffect.isStatus = [] ∧
    (setupCS (cloneFailSetup "clone failed")).effects.filter CEffect.isTerminate = [] := by
  decide

/-- C9 (amended): fatal setup errors — clone, sandbox-creation or install
failures — abort the unit of work with no retry, but they propagate raw
out of the constructor: no log entry, no job-status write and no sandbox
termination attempt is made for them.  Hard failures raised inside `run`
after a successful setup are the ones that are logged, set the job status
to "failed", attempt sandbox termination and are re-raised. -/
theorem hard_failure_handling (m : String) (cfg : CSConfig) (st : CSState)
    (o : RunOracle) (p : String)
    (hc : o.coder1 = Except.error m) (hs : st.sandbox = true) :
    (setupCS (cloneFailSetup m)).raised = some m ∧
    (setupCS (cloneFailSetup m)).effects.filter CEffect.isAddLog = [] ∧
    (setupCS (cloneFailSetup m)).effects.filter CEffect.isStatus = [] ∧
    (setupCS (cloneFailSetup m)).effects.filter CEffect.isTerminate = [] ∧
    (setupCS (sandboxFailSetup m)).raised = some m ∧
    (setupCS (sandboxFailSetup m)).effects.filter CEffect.isAddLog = [] ∧
    (setupCS (sandboxFailSetup m)).effects.filter CEffect.isStatus = [] ∧
    (setupCS (sandboxFailSetup m)).effects.filter CEffect.isTerminate = [] ∧
    (setupCS (installFailSetup m)).raised = some m ∧
    (setupCS (installFailSetup m)).effects.filter CEffect.isAddLog = [] ∧
    (setupCS (installFailSetup m)).effects.filter CEffect.isStatus = [] ∧
    (setupCS (installFailSetup m)).effects.filter CEffect.isTerminate = [] ∧
    (runCS cfg st o p).raised = some m ∧
    CEffect.addLog "backend" ("Aider run failed: " ++ m) ∈
      (runCS cfg st o p).effects ∧
    CEffect.updateJobStatus "failed" (some ("Aider run failed: " ++ m)) ∈
      (runCS cfg st o p).effects ∧
    CEffect.terminateSandbox ∈ (runCS cfg st o p).effects ∧
    (runCS cfg st o p).result = none := by
  have hr : runCS cfg st o p =
      runExceptClause st
        ([CEffect.updateJobStatus "running" none] ++ [CEffect.coderCall p]) m := by
    unfold runCS
    rw [hc]
  refine ⟨rfl, rfl, rfl, rfl, rfl, rfl, rfl, rfl, rfl, rfl, rfl, rfl,
    ?_, ?_, ?_, ?_, ?_⟩ <;>
    simp [hr, runExceptClause, terminateSandboxEffects, hs]

/-- Witness for `hard_failure_handling`: the first coder invocation raises
"api is down" while a sandbox exists. -/
theorem hard_failure_handling_witness :
    (setupCS (cloneFailSetup "api is down")).raised = some "api is down" ∧
    (setupCS (cloneFailSetup "api is down")).effects.filter CEffect.isAddLog = [] ∧
    (setupCS (cloneFailSetup "api is down")).effects.filter CEffect.isStatus = [] ∧
    (setupCS (cloneFailSetup "api is down")).effects.filter CEffect.isTerminate = [] ∧
    (setupCS (sandboxFailSetup "api is down")).raised = some "api is down" ∧
    (setupCS (sandboxFailSetup "api is down")).effects.filter CEffect.isAddLog = [] ∧
    (setupCS (sandboxFailSetup "api is down")).effects.filter CEffect.isStatus = [] ∧
    (setupCS (sandboxFailSetup "api is down")).effects.filter CEffect.isTerminate = [] ∧
    (setupCS (installFailSetup "api is down")).raised = some "api is down" ∧
    (setupCS (installFailSetup "api is down")).effects.filter CEffect.isAddLog = [] ∧
    (setupCS (installFailSetup "api is down")).effects.filter CEffect.isStatus = [] ∧
    (setupCS (installFailSetup "api is down")).effects.filter CEffect.isTerminate = [] ∧
    (runCS { manualSandboxTermination := false } { sandbox := true }
      (coderFailRun "api is down") "add a footer").raised = some "api is down" ∧
    CEffect.addLog "backend" ("Aider run failed: " ++ "api is down") ∈
      (runCS { manualSandboxTermination := false } { sandbox := true }
        (coderFailRun "api is down") "add a footer").effects ∧
    CEffect.updateJobStatus "failed" (some ("Aider run failed: " ++ "api is down")) ∈
      (runCS { manualSandboxTermination := false } { sandbox := true }
        (coderFailRun "api is down") "add a footer").effects ∧
    CEffect.terminateSandbox ∈
      (runCS { manualSandboxTermination := false } { sandbox := true }
        (coderFailRun "api is down") "add a footer").effects ∧
    (runCS { manualSandboxTermination := false } { sandbox := true }
      (coderFailRun "api is down") "add a footer").result = none :=
  hard_failure_handling "api is down" _ _ _ "add a footer" rfl rfl

/-- C10: whenever the body of `_run_build_in_sandbox` raises — the sandbox
exec raising, or the teardown path where `terminate_after_build` is true,
`manual_sandbox_termination` is false and `repo_dir.cleanup()` is called
on the plain `mkdtemp()` string — the exception is caught: a "build" log
entry is added, the job status is set to "failed", and the function
returns the two-key dict instead of the annotated `(bool, str)` tuple, so
the caller's tuple unpacking binds `has_errors` and `logs` to the dict's
two keys "status" and "error". -/
theorem runBuild_exception_returns_dict (cfg : CSConfig) (st : CSState)
    (o : BuildOracle) (tb : Bool)
    (h : o.execThrows ≠ none ∨
      (tb = true ∧ cfg.manualSandboxTermination = false)) :
    ∃ em, (runBuildInSandbox cfg st o tb).ret = BuildRet.dict "error" em ∧
      CEffect.addLog "build" em ∈ (runBuildInSandbox cfg st o tb).effects ∧
      CEffect.updateJobStatus "failed" (some em) ∈
        (runBuildInSandbox cfg st o tb).effects ∧
      unpackBuildRet (BuildRet.dict "error" em) =
        (PyV.ps "status", PyV.ps "error") := by
  cases het : o.execThrows with
  | some m =>
      refine ⟨"Build failed: " ++ m, ?_, ?_, ?_, rfl⟩ <;>
        simp [runBuildInSandbox, het]
  | none =>
      rcases h with h | ⟨htb, hm⟩
      · exact absurd het h
      · subst htb
        rw [runBuild_teardown_case cfg st o het hm]
        refine ⟨"Build failed: str object has no attribute cleanup",
          rfl, ?_, ?_, rfl⟩ <;>
          simp [terminateSandboxEffects]

/-- Witness for `runBuild_exception_returns_dict` on the teardown path:
no exec failure, teardown requested, manual termination off. -/
theorem runBuild_exception_returns_dict_witness :
    ∃ em, (runBuildInSandbox { manualSandboxTermination := false }
        { sandbox := true } quietBuild true).ret = BuildRet.dict "error" em ∧
      CEffect.addLog "build" em ∈ (runBuildInSandbox
        { manualSandboxTermination := false } { sandbox := true }
        quietBuild true).effects ∧
      CEffect.updateJobStatus "failed" (some em) ∈ (runBuildInSandbox
        { manualSandboxTermination := false } { sandbox := true }
        quietBuild true).effects ∧
      unpackBuildRet (BuildRet.dict "error" em) =
        (PyV.ps "status", PyV.ps "error") :=
  runBuild_exception_returns_dict _ _ quietBuild true (Or.inr ⟨rfl, rfl⟩)
